import Mathlib

/-!
Verification of the client-side authentication slice (AuthService and the
useFindId form controller) of the KFE3 web application.

The TypeScript source is embedded shallowly:

* JavaScript strings become Lean `String`; a missing field (`undefined`) is
  represented by `""`, which is sound here because every test the code
  performs on these fields (`!x`, `x && ...`, `x.length`, `x !== y`) treats
  `undefined` and `""` the same way wherever both can occur.
* The network is a value of `FetchOutcome` passed in explicitly: either the
  fetch/json step rejects (with a flag telling whether the rejected value is
  an `Error` instance), or it yields a parsed response with an HTTP `ok` flag
  and an optional `error` field in the body.
* Fallible async functions become functions returning `Except String α`
  paired with the number of network requests issued.
* The React hook useFindId is modelled by the list of state-setter effects
  its submit handler performs, in order, plus the request count; a small
  interpreter folds the effects over a concrete component state.
-/

namespace Auth

/-- Model of the JavaScript string `trim` (ASCII whitespace at both ends). -/
def jsTrim (s : String) : String :=
  ⟨((s.data.dropWhile Char.isWhitespace).reverse.dropWhile Char.isWhitespace).reverse⟩

/-- Model of the JavaScript expression `o || d` for an optional string field:
`undefined` and the empty string are falsy, any other string is truthy. -/
def jsTruthyOrElse (o : Option String) (d : String) : String :=
  match o with
  | some s => if s = "" then d else s
  | none => d

/-- A character admitted by the bracket class of the email pattern used in
`validateSignupData`: anything that is not whitespace and not an at sign. -/
def okChar (c : Char) : Bool :=
  !c.isWhitespace && c != '@'

/-- Model of `emailRegex.test`, for the pattern `^[^\s@]+@[^\s@]+\.[^\s@]+$`
from `AuthService.validateSignupData`.  The regex matches exactly when the
character list splits as `L ++ [at] ++ A ++ [dot] ++ B` with `L`, `A`, `B`
nonempty lists of `okChar` characters; the test searches over the position
`i` of the at sign and the position `j` of the dot. -/
def emailRegexTest (s : String) : Bool :=
  let cs := s.data
  let n := cs.length
  (List.range n).any fun i =>
    (List.range n).any fun j =>
      decide (0 < i ∧ i + 1 < j ∧ j + 1 < n ∧
        cs.getD i ' ' = '@' ∧ cs.getD j ' ' = '.' ∧
        (cs.take i).all okChar = true ∧
        ((cs.drop (i + 1)).take (j - (i + 1))).all okChar = true ∧
        (cs.drop (j + 1)).all okChar = true)

/-- The two duplicate-check kinds accepted by `AuthService.checkDuplicate`. -/
inductive CheckType
  | email
  | username
deriving DecidableEq, Repr

/-- One round trip of `fetch` + `response.json()` as seen by the caller:
either the awaited chain rejects (`thrown`, with a flag telling whether the
rejected value is an `Error` instance), or it produces a parsed response
with the HTTP `ok` flag and the optional `error` field of the JSON body. -/
inductive FetchOutcome
  | thrown (isErrorInstance : Bool) (msg : String)
  | response (ok : Bool) (error : Option String)
deriving DecidableEq, Repr

/-- The generic fallback message of `checkDuplicate`. -/
def dupFallbackMsg : String := "중복 확인 중 오류가 발생했습니다."

/-- The empty-input messages of `checkDuplicate`, by kind. -/
def emptyInputMsg (type : CheckType) : String :=
  match type with
  | .email => "이메일을 입력해주세요."
  | .username => "닉네임을 입력해주세요."

/-- Embedding of `AuthService.checkDuplicate`.  Returns the settled value of
the promise (`Except.error` = the promise rejected with an `Error` carrying
that message) together with the number of fetch requests issued.

Source behaviour: if `value.trim()` is empty it throws the localized
empty-input message before any fetch; otherwise it fetches, parses the JSON
body, throws `data.error || fallback` on a non-ok status, and returns `true`
on an ok status; a non-`Error` rejection inside the try block is replaced by
the generic fallback message by the catch clause, an `Error` is rethrown. -/
def checkDuplicate (type : CheckType) (value : String) (world : FetchOutcome) :
    Except String Bool × Nat :=
  if jsTrim value = "" then
    (Except.error (emptyInputMsg type), 0)
  else
    match world with
    | .thrown isErrorInstance msg =>
        (Except.error (if isErrorInstance then msg else dupFallbackMsg), 1)
    | .response ok error =>
        if ok then (Except.ok true, 1)
        else (Except.error (jsTruthyOrElse error dupFallbackMsg), 1)

/-- Embedding of `AuthService.checkEmailDuplicate`, a thin wrapper. -/
def checkEmailDuplicate (email : String) (world : FetchOutcome) :
    Except String Bool × Nat :=
  checkDuplicate CheckType.email email world

/-- The fields of the signup payload read by `validateSignupData`
(`SignupData` plus the client-only `confirmPassword`).  A field that is
`undefined` in a JavaScript payload such as `{}` is represented by `""`. -/
structure SignupData where
  email : String
  password : String
  confirmPassword : String
  username : String
  address : String
deriving DecidableEq, Repr

/-- The `ValidationErrors` mapping.  The source only ever assigns these five
keys, so the object is a record of five optional messages; `none` means the
key is absent from the mapping. -/
structure ValidationErrors where
  email : Option String := none
  password : Option String := none
  confirmPassword : Option String := none
  username : Option String := none
  address : Option String := none
deriving DecidableEq, Repr

/-- The empty `ValidationErrors` mapping. -/
def noErrors : ValidationErrors := {}

/-- Statement 1 of `validateSignupData`: `if (!data.email) ...`. -/
def requiredEmailCheck (data : SignupData) (e : ValidationErrors) : ValidationErrors :=
  if data.email = "" then { e with email := some "이메일을 입력해주세요." } else e

/-- Statement 2 of `validateSignupData`: `if (!data.password) ...`. -/
def requiredPasswordCheck (data : SignupData) (e : ValidationErrors) : ValidationErrors :=
  if data.password = "" then { e with password := some "비밀번호를 입력해주세요." } else e

/-- Statement 3 of `validateSignupData`: `if (!data.confirmPassword) ...`. -/
def requiredConfirmCheck (data : SignupData) (e : ValidationErrors) : ValidationErrors :=
  if data.confirmPassword = "" then
    { e with confirmPassword := some "비밀번호 확인이 필요합니다." } else e

/-- Statement 4 of `validateSignupData`: `if (!data.username) ...`. -/
def requiredUsernameCheck (data : SignupData) (e : ValidationErrors) : ValidationErrors :=
  if data.username = "" then { e with username := some "닉네임을 입력해주세요." } else e

/-- Statement 5 of `validateSignupData`: `if (!data.address) ...`. -/
def requiredAddressCheck (data : SignupData) (e : ValidationErrors) : ValidationErrors :=
  if data.address = "" then { e with address := some "주소를 입력해주세요." } else e

/-- Statement 6 of `validateSignupData`:
`if (data.email && !emailRegex.test(data.email)) ...`. -/
def emailFormatCheck (data : SignupData) (e : ValidationErrors) : ValidationErrors :=
  if data.email ≠ "" ∧ emailRegexTest data.email = false then
    { e with email := some "올바른 이메일 형식을 입력해주세요." } else e

/-- Statement 7 of `validateSignupData`:
`if (data.password && data.password.length < 8) ...`. -/
def passwordLengthCheck (data : SignupData) (e : ValidationErrors) : ValidationErrors :=
  if data.password ≠ "" ∧ data.password.length < 8 then
    { e with password := some "비밀번호는 8자 이상이어야 합니다." } else e

/-- Statement 8 of `validateSignupData`: `if (data.password &&
data.confirmPassword && data.password !== data.confirmPassword) ...`. -/
def passwordMatchCheck (data : SignupData) (e : ValidationErrors) : ValidationErrors :=
  if data.password ≠ "" ∧ data.confirmPassword ≠ "" ∧
      data.password ≠ data.confirmPassword then
    { e with confirmPassword := some "비밀번호가 일치하지 않습니다." } else e

/-- Embedding of `AuthService.validateSignupData`: the eight `if` statements
of the source, executed in order over the same mutable `errors` object,
here as successive functional updates starting from the empty mapping. -/
def validateSignupData (data : SignupData) : ValidationErrors :=
  passwordMatchCheck data (passwordLengthCheck data (emailFormatCheck data
    (requiredAddressCheck data (requiredUsernameCheck data
      (requiredConfirmCheck data (requiredPasswordCheck data
        (requiredEmailCheck data {})))))))

/-- The status enumeration of the useFindId controller; `idle` is the
source's empty-string status. -/
inductive CheckStatus
  | idle
  | checking
  | success
  | error
deriving DecidableEq, Repr

/-- One React state-setter call performed by the useFindId submit handler. -/
inductive Effect
  | setIsChecking (b : Bool)
  | setStatus (st : CheckStatus)
  | setMessage (m : String)
deriving DecidableEq, Repr

/-- The component state held by useFindId. -/
structure FindIdState where
  email : String
  isChecking : Bool
  status : CheckStatus
  message : String
deriving DecidableEq, Repr

/-- Apply one state-setter effect to the component state. -/
def applyEffect (s : FindIdState) : Effect → FindIdState
  | .setIsChecking b => { s with isChecking := b }
  | .setStatus st => { s with status := st }
  | .setMessage m => { s with message := m }

/-- Run a list of state-setter effects in order. -/
def runEffects (s : FindIdState) (es : List Effect) : FindIdState :=
  es.foldl applyEffect s

/-- The message of the zod email schema in useFindId.  The schema is
`z.string().email` with this custom message, so every failed parse of a
string input reports exactly this message. -/
def zodEmailMessage : String := "유효한 이메일 주소를 입력해주세요."

/-- Message shown by useFindId when the duplicate check resolves. -/
def notRegisteredMsg : String := "가입되지 않은 이메일입니다."

/-- Message shown by useFindId when the duplicate check throws. -/
def registeredMsg : String := "가입된 이메일입니다."

/-- Embedding of the useFindId submit handler `onCheckEmail`.

`zodEmailValid` stands for the external zod predicate
`emailSchema.safeParse(email).success` (library code outside this
repository); `world` is the behaviour of the one possible network round
trip.  The result is the ordered list of state-setter calls the handler
performs and the number of fetch requests issued.

Source behaviour: on a failed parse it sets the message to the schema
message, sets status to error and returns; otherwise it sets
isChecking/status/message, awaits `AuthService.checkEmailDuplicate`, sets
status error and the not-registered message if the call resolved, status
success and the registered message if it threw, and finally always sets
isChecking to false. -/
def onCheckEmail (zodEmailValid : String → Bool) (world : FetchOutcome)
    (email : String) : List Effect × Nat :=
  if zodEmailValid email then
    let res := checkEmailDuplicate email world
    ([Effect.setIsChecking true, Effect.setStatus .checking, Effect.setMessage ""] ++
      (match res.1 with
       | .ok _ => [Effect.setStatus .error, Effect.setMessage notRegisteredMsg]
       | .error _ => [Effect.setStatus .success, Effect.setMessage registeredMsg]) ++
      [Effect.setIsChecking false], res.2)
  else
    ([Effect.setMessage zodEmailMessage, Effect.setStatus .error], 0)

/-- A convenient initial component state: the given email typed in, not
checking, idle status, empty message. -/
def initState (email : String) : FindIdState :=
  ⟨email, false, CheckStatus.idle, ""⟩

/-! ## Helper lemmas -/

/-- Characterization of the email regex test as an existential over the
positions of the at sign and of the dot. -/
theorem emailRegexTest_iff (s : String) :
    emailRegexTest s = true ↔
      ∃ i j, 0 < i ∧ i + 1 < j ∧ j + 1 < s.data.length ∧
        s.data.getD i ' ' = '@' ∧ s.data.getD j ' ' = '.' ∧
        (s.data.take i).all okChar = true ∧
        ((s.data.drop (i + 1)).take (j - (i + 1))).all okChar = true ∧
        (s.data.drop (j + 1)).all okChar = true := by
  unfold emailRegexTest
  simp only [List.any_eq_true, List.mem_range, decide_eq_true_eq]
  constructor
  · rintro ⟨i, _, j, _, h⟩
    exact ⟨i, j, h⟩
  · rintro ⟨i, j, h1, h2, h3, h⟩
    exact ⟨i, by omega, j, by omega, h1, h2, h3, h⟩

/-- `requiredEmailCheck` only rewrites the email entry. -/
theorem requiredEmailCheck_eq (data : SignupData) (e : ValidationErrors) :
    requiredEmailCheck data e =
      { e with email := if data.email = "" then some "이메일을 입력해주세요." else e.email } := by
  unfold requiredEmailCheck
  split_ifs <;> rfl

/-- `requiredPasswordCheck` only rewrites the password entry. -/
theorem requiredPasswordCheck_eq (data : SignupData) (e : ValidationErrors) :
    requiredPasswordCheck data e =
      { e with password :=
          if data.password = "" then some "비밀번호를 입력해주세요." else e.password } := by
  unfold requiredPasswordCheck
  split_ifs <;> rfl

/-- `requiredConfirmCheck` only rewrites the confirmPassword entry. -/
theorem requiredConfirmCheck_eq (data : SignupData) (e : ValidationErrors) :
    requiredConfirmCheck data e =
      { e with confirmPassword :=
          if data.confirmPassword = "" then some "비밀번호 확인이 필요합니다."
          else e.confirmPassword } := by
  unfold requiredConfirmCheck
  split_ifs <;> rfl

/-- `requiredUsernameCheck` only rewrites the username entry. -/
theorem requiredUsernameCheck_eq (data : SignupData) (e : ValidationErrors) :
    requiredUsernameCheck data e =
      { e with username :=
          if data.username = "" then some "닉네임을 입력해주세요." else e.username } := by
  unfold requiredUsernameCheck
  split_ifs <;> rfl

/-- `requiredAddressCheck` only rewrites the address entry. -/
theorem requiredAddressCheck_eq (data : SignupData) (e : ValidationErrors) :
    requiredAddressCheck data e =
      { e with address :=
          if data.address = "" then some "주소를 입력해주세요." else e.address } := by
  unfold requiredAddressCheck
  split_ifs <;> rfl

/-- `emailFormatCheck` only rewrites the email entry. -/
theorem emailFormatCheck_eq (data : SignupData) (e : ValidationErrors) :
    emailFormatCheck data e =
      { e with email :=
          if data.email ≠ "" ∧ emailRegexTest data.email = false then
            some "올바른 이메일 형식을 입력해주세요." else e.email } := by
  unfold emailFormatCheck
  split_ifs <;> rfl

/-- `passwordLengthCheck` only rewrites the password entry. -/
theorem passwordLengthCheck_eq (data : SignupData) (e : ValidationErrors) :
    passwordLengthCheck data e =
      { e with password :=
          if data.password ≠ "" ∧ data.password.length < 8 then
            some "비밀번호는 8자 이상이어야 합니다." else e.password } := by
  unfold passwordLengthCheck
  split_ifs <;> rfl

/-- `passwordMatchCheck` only rewrites the confirmPassword entry. -/
theorem passwordMatchCheck_eq (data : SignupData) (e : ValidationErrors) :
    passwordMatchCheck data e =
      { e with confirmPassword :=
          if data.password ≠ "" ∧ data.confirmPassword ≠ "" ∧
              data.password ≠ data.confirmPassword then
            some "비밀번호가 일치하지 않습니다." else e.confirmPassword } := by
  unfold passwordMatchCheck
  split_ifs <;> rfl

/-- Two error mappings are equal exactly when all five entries agree. -/
theorem validationErrors_eq_iff (a b : ValidationErrors) :
    a = b ↔ a.email = b.email ∧ a.password = b.password ∧
      a.confirmPassword = b.confirmPassword ∧ a.username = b.username ∧
      a.address = b.address := by
  cases a
  cases b
  simp [ValidationErrors.mk.injEq]

/-- The password entry of the returned mapping, in closed form. -/
theorem validateSignupData_password_field (data : SignupData) :
    (validateSignupData data).password =
      if data.password ≠ "" ∧ data.password.length < 8 then
        some "비밀번호는 8자 이상이어야 합니다."
      else if data.password = "" then some "비밀번호를 입력해주세요."
      else none := by
  simp only [validateSignupData, requiredEmailCheck_eq, requiredPasswordCheck_eq,
    requiredConfirmCheck_eq, requiredUsernameCheck_eq, requiredAddressCheck_eq,
    emailFormatCheck_eq, passwordLengthCheck_eq, passwordMatchCheck_eq]

/-- The confirmPassword entry of the returned mapping, in closed form. -/
theorem validateSignupData_confirm_field (data : SignupData) :
    (validateSignupData data).confirmPassword =
      if data.password ≠ "" ∧ data.confirmPassword ≠ "" ∧
          data.password ≠ data.confirmPassword then
        some "비밀번호가 일치하지 않습니다."
      else if data.confirmPassword = "" then some "비밀번호 확인이 필요합니다."
      else none := by
  simp only [validateSignupData, requiredEmailCheck_eq, requiredPasswordCheck_eq,
    requiredConfirmCheck_eq, requiredUsernameCheck_eq, requiredAddressCheck_eq,
    emailFormatCheck_eq, passwordLengthCheck_eq, passwordMatchCheck_eq]

/-- The email entry of the returned mapping, in closed form. -/
theorem validateSignupData_email_field (data : SignupData) :
    (validateSignupData data).email =
      if data.email ≠ "" ∧ emailRegexTest data.email = false then
        some "올바른 이메일 형식을 입력해주세요."
      else if data.email = "" then some "이메일을 입력해주세요."
      else none := by
  simp only [validateSignupData, requiredEmailCheck_eq, requiredPasswordCheck_eq,
    requiredConfirmCheck_eq, requiredUsernameCheck_eq, requiredAddressCheck_eq,
    emailFormatCheck_eq, passwordLengthCheck_eq, passwordMatchCheck_eq]

/-- The username entry of the returned mapping, in closed form. -/
theorem validateSignupData_username_field (data : SignupData) :
    (validateSignupData data).username =
      if data.username = "" then some "닉네임을 입력해주세요." else none := by
  simp only [validateSignupData, requiredEmailCheck_eq, requiredPasswordCheck_eq,
    requiredConfirmCheck_eq, requiredUsernameCheck_eq, requiredAddressCheck_eq,
    emailFormatCheck_eq, passwordLengthCheck_eq, passwordMatchCheck_eq]

/-- The address entry of the returned mapping, in closed form. -/
theorem validateSignupData_address_field (data : SignupData) :
    (validateSignupData data).address =
      if data.address = "" then some "주소를 입력해주세요." else none := by
  simp only [validateSignupData, requiredEmailCheck_eq, requiredPasswordCheck_eq,
    requiredConfirmCheck_eq, requiredUsernameCheck_eq, requiredAddressCheck_eq,
    emailFormatCheck_eq, passwordLengthCheck_eq, passwordMatchCheck_eq]

/-! ## Claim theorems -/

/-- C2: for both check kinds and every value whose trim is empty,
`checkDuplicate` rejects with the localized please-enter message for that
kind and performs no fetch. -/
theorem checkDuplicate_empty_input (type : CheckType) (value : String)
    (world : FetchOutcome) (h : jsTrim value = "") :
    checkDuplicate type value world = (Except.error (emptyInputMsg type), 0) := by
  simp [checkDuplicate, h]

/-- Witness for C2 at `type = email`, `value = "   "`. -/
theorem checkDuplicate_empty_input_witness :
    checkDuplicate CheckType.email "   " (FetchOutcome.response true none) =
      (Except.error "이메일을 입력해주세요.", 0) :=
  checkDuplicate_empty_input CheckType.email "   " (FetchOutcome.response true none)
    (by decide)

/-- Counterexample to C3 as stated: on a non-ok response whose body carries
the error field with value `""` (present but empty), the thrown message is
the generic fallback, not the server-supplied field, because the source
computes `data.error || fallback` and the empty string is falsy. -/
theorem checkDuplicate_empty_error_field_cex :
    checkDuplicate CheckType.email "a@b.com" (FetchOutcome.response false (some "")) =
      (Except.error "중복 확인 중 오류가 발생했습니다.", 1) ∧
    "중복 확인 중 오류가 발생했습니다." ≠ "" := by
  exact ⟨rfl, by decide⟩

/-- C3 (amended): for every non-empty trimmed value, on a non-ok response
`checkDuplicate` rejects with the server-supplied error field when it is
present and non-empty, and with the generic fallback when the field is
absent or empty; on an ok response it resolves to `true`. -/
theorem checkDuplicate_response_behaviour (type : CheckType) (value : String)
    (e : String) (h : jsTrim value ≠ "") (he : e ≠ "") :
    checkDuplicate type value (FetchOutcome.response false (some e)) =
      (Except.error e, 1) ∧
    checkDuplicate type value (FetchOutcome.response false none) =
      (Except.error dupFallbackMsg, 1) ∧
    checkDuplicate type value (FetchOutcome.response false (some "")) =
      (Except.error dupFallbackMsg, 1) ∧
    ∀ err : Option String,
      checkDuplicate type value (FetchOutcome.response true err) = (Except.ok true, 1) := by
  refine ⟨?_, ?_, ?_, fun err => ?_⟩ <;> simp [checkDuplicate, jsTruthyOrElse, h, he]

/-- Witness for C3 (amended): the HTTP 409 body of the spec example and an
HTTP 200 response, at `value = "a@b.com"`. -/
theorem checkDuplicate_response_behaviour_witness :
    checkDuplicate CheckType.email "a@b.com"
        (FetchOutcome.response false (some "already exists")) =
      (Except.error "already exists", 1) ∧
    checkDuplicate CheckType.email "a@b.com" (FetchOutcome.response true none) =
      (Except.ok true, 1) := by
  have h := checkDuplicate_response_behaviour CheckType.email "a@b.com" "already exists"
    (by decide) (by decide)
  exact ⟨h.1, h.2.2.2 none⟩

/-- C4: on the all-empty payload (the JavaScript `{}`, every field
`undefined`), `validateSignupData` returns exactly the five required-field
errors and nothing else. -/
theorem validateSignupData_empty_payload :
    validateSignupData ⟨"", "", "", "", ""⟩ =
      { email := some "이메일을 입력해주세요.",
        password := some "비밀번호를 입력해주세요.",
        confirmPassword := some "비밀번호 확인이 필요합니다.",
        username := some "닉네임을 입력해주세요.",
        address := some "주소를 입력해주세요." } := by
  decide

/-- C5: a payload with all five fields present, an email accepted by the
regex, and matching passwords of length at least 8 validates cleanly; and
any payload whose password is the 7-character `"abc1234"` gets the
password-length error under the password key. -/
theorem validateSignupData_valid_and_short_password (data other : SignupData)
    (h1 : data.email ≠ "") (h2 : data.password ≠ "") (h3 : data.confirmPassword ≠ "")
    (h4 : data.username ≠ "") (h5 : data.address ≠ "")
    (h6 : emailRegexTest data.email = true) (h7 : 8 ≤ data.password.length)
    (h8 : data.password = data.confirmPassword)
    (hp : other.password ≠ "") (hp7 : other.password.length = 7) :
    validateSignupData data = noErrors ∧
    (validateSignupData other).password = some "비밀번호는 8자 이상이어야 합니다." := by
  constructor
  · rw [validationErrors_eq_iff]
    refine ⟨?_, ?_, ?_, ?_, ?_⟩
    · rw [validateSignupData_email_field]
      simp [noErrors, h1, h6]
    · rw [validateSignupData_password_field]
      simp [noErrors, h1, h2, Nat.not_lt.mpr h7]
    · rw [validateSignupData_confirm_field]
      simp [noErrors, h3, h8]
    · rw [validateSignupData_username_field]
      simp [noErrors, h4]
    · rw [validateSignupData_address_field]
      simp [noErrors, h5]
  · rw [validateSignupData_password_field]
    simp [hp, hp7]

/-- Witness for C5: a fully valid payload and a payload with the
7-character password. -/
theorem validateSignupData_valid_and_short_password_witness :
    validateSignupData ⟨"a@b.com", "abcd1234", "abcd1234", "user", "addr"⟩ = noErrors ∧
    (validateSignupData ⟨"a@b.com", "abc1234", "abc1234", "user", "addr"⟩).password =
      some "비밀번호는 8자 이상이어야 합니다." :=
  validateSignupData_valid_and_short_password
    ⟨"a@b.com", "abcd1234", "abcd1234", "user", "addr"⟩
    ⟨"a@b.com", "abc1234", "abc1234", "user", "addr"⟩
    (by decide) (by decide) (by decide) (by decide) (by decide) (by decide)
    (by decide) (by decide) (by decide) (by decide)

/-- C6: whenever password and confirmPassword are both present and differ,
the mismatch error is reported under the confirmPassword key, whatever the
other fields are; and failing checks for the other fields are still
collected alongside it rather than short-circuited. -/
theorem validateSignupData_mismatch_collected (data : SignupData)
    (h1 : data.password ≠ "") (h2 : data.confirmPassword ≠ "")
    (h3 : data.password ≠ data.confirmPassword) :
    (validateSignupData data).confirmPassword = some "비밀번호가 일치하지 않습니다." ∧
    (data.email = "" → (validateSignupData data).email = some "이메일을 입력해주세요.") ∧
    (data.username = "" → (validateSignupData data).username = some "닉네임을 입력해주세요.") ∧
    (data.address = "" → (validateSignupData data).address = some "주소를 입력해주세요.") := by
  refine ⟨?_, fun he => ?_, fun hu => ?_, fun ha => ?_⟩
  · rw [validateSignupData_confirm_field]
    simp [h1, h2, h3]
  · rw [validateSignupData_email_field]
    simp [he]
  · rw [validateSignupData_username_field]
    simp [hu]
  · rw [validateSignupData_address_field]
    simp [ha]

/-- Witness for C6: mismatched passwords together with three other failing
fields, all reported at once. -/
theorem validateSignupData_mismatch_collected_witness :
    (validateSignupData ⟨"", "abcdefgh", "x", "", ""⟩).confirmPassword =
      some "비밀번호가 일치하지 않습니다." ∧
    (validateSignupData ⟨"", "abcdefgh", "x", "", ""⟩).email = some "이메일을 입력해주세요." ∧
    (validateSignupData ⟨"", "abcdefgh", "x", "", ""⟩).username = some "닉네임을 입력해주세요." ∧
    (validateSignupData ⟨"", "abcdefgh", "x", "", ""⟩).address = some "주소를 입력해주세요." := by
  have h := validateSignupData_mismatch_collected ⟨"", "abcdefgh", "x", "", ""⟩
    (by decide) (by decide) (by decide)
  exact ⟨h.1, h.2.1 rfl, h.2.2.1 rfl, h.2.2.2 rfl⟩

/-- C10: with a present password and an empty confirmPassword, the
confirmPassword key carries the required-field message, never the mismatch
message, because the mismatch check requires both fields to be truthy. -/
theorem validateSignupData_confirm_required_not_mismatch (data : SignupData)
    (h1 : data.password ≠ "") (h2 : data.confirmPassword = "") :
    (validateSignupData data).confirmPassword = some "비밀번호 확인이 필요합니다." ∧
    (validateSignupData data).confirmPassword ≠ some "비밀번호가 일치하지 않습니다." := by
  have hc : (validateSignupData data).confirmPassword = some "비밀번호 확인이 필요합니다." := by
    rw [validateSignupData_confirm_field]
    simp [h2]
  refine ⟨hc, ?_⟩
  rw [hc]
  decide

/-- C7: the email pattern rejects every string without an at sign and
every string with no dot after an at sign (no dot in the domain part), and
accepts every string of the well-formed shape `local @ domain . tld` built
from non-whitespace, non-at characters with all three parts nonempty. -/
theorem emailRegexTest_spec :
    (∀ s : String, '@' ∉ s.data → emailRegexTest s = false) ∧
    (∀ s : String,
        (∀ i, i < s.data.length → ∀ j, j < s.data.length →
          s.data.getD i ' ' = '@' → i < j → s.data.getD j ' ' ≠ '.') →
        emailRegexTest s = false) ∧
    (∀ L A B : List Char, L ≠ [] → A ≠ [] → B ≠ [] →
        L.all okChar = true → A.all okChar = true → B.all okChar = true →
        emailRegexTest ⟨L ++ ('@' :: (A ++ ('.' :: B)))⟩ = true) := by
  refine ⟨fun s hs => ?_, fun s hnd => ?_,
    fun L A B hL hA hB hLok hAok hBok => ?_⟩
  · rw [Bool.eq_false_iff, Ne, emailRegexTest_iff]
    rintro ⟨i, j, h1, h2, h3, h4, h5, h6, h7, h8⟩
    have hi : i < s.data.length := by omega
    rw [List.getD_eq_getElem s.data ' ' hi] at h4
    exact hs (List.mem_iff_getElem.mpr ⟨i, hi, h4⟩)
  · rw [Bool.eq_false_iff, Ne, emailRegexTest_iff]
    rintro ⟨i, j, h1, h2, h3, h4, h5, h6, h7, h8⟩
    exact hnd i (by omega) j (by omega) h4 (by omega) h5
  · have hdata : (⟨L ++ ('@' :: (A ++ ('.' :: B)))⟩ : String).data =
        L ++ ('@' :: (A ++ ('.' :: B))) := rfl
    have hLl : 0 < L.length := List.length_pos.mpr hL
    have hAl : 0 < A.length := List.length_pos.mpr hA
    have hBl : 0 < B.length := List.length_pos.mpr hB
    rw [emailRegexTest_iff, hdata]
    refine ⟨L.length, L.length + 1 + A.length, hLl, by omega, ?_, ?_, ?_, ?_, ?_, ?_⟩
    · simp only [List.length_append, List.length_cons]
      omega
    · rw [List.getD_append_right _ _ _ _ (Nat.le_refl _)]
      simp
    · rw [show L ++ ('@' :: (A ++ ('.' :: B))) = (L ++ ('@' :: A)) ++ ('.' :: B) by simp,
        show L.length + 1 + A.length = (L ++ ('@' :: A)).length by
          simp only [List.length_append, List.length_cons]; omega,
        List.getD_append_right _ _ _ _ (Nat.le_refl _)]
      simp
    · rw [List.take_left]
      exact hLok
    · rw [show L.length + 1 + A.length - (L.length + 1) = A.length by omega,
        show L ++ ('@' :: (A ++ ('.' :: B))) = (L ++ ['@']) ++ (A ++ ('.' :: B)) by simp,
        List.drop_left' (by simp : (L ++ ['@']).length = L.length + 1),
        List.take_left' rfl]
      exact hAok
    · rw [show L ++ ('@' :: (A ++ ('.' :: B))) = ((L ++ ('@' :: A)) ++ ['.']) ++ B by simp,
        List.drop_left' (by simp only [List.length_append, List.length_cons,
          List.length_nil]; omega : ((L ++ ('@' :: A)) ++ ['.']).length =
            L.length + 1 + A.length + 1)]
      exact hBok

/-- Witness for C7: a string without an at sign, a string whose domain
part has no dot, and a well-formed address. -/
theorem emailRegexTest_spec_witness :
    emailRegexTest "plain" = false ∧ emailRegexTest "a@b" = false ∧
    emailRegexTest "a@b.com" = true := by
  refine ⟨emailRegexTest_spec.1 "plain" (by decide),
    emailRegexTest_spec.2.1 "a@b" (by decide), ?_⟩
  have h := emailRegexTest_spec.2.2 ['a'] ['b'] ['c', 'o', 'm']
    (by decide) (by decide) (by decide) (by decide) (by decide) (by decide)
  exact h

/-- Counterexample to C1 as stated: with validation passing and the
network call resolving, the handler sets status to error with the
not-registered message (the claim predicts success with the registered
message); with the call throwing, it sets status to success with the
registered message (the claim predicts error). -/
theorem onCheckEmail_inverted_cex :
    (runEffects (initState "a@b.com")
        (onCheckEmail (fun _ => true) (FetchOutcome.response true none) "a@b.com").1).status =
      CheckStatus.error ∧
    (runEffects (initState "a@b.com")
        (onCheckEmail (fun _ => true) (FetchOutcome.response true none) "a@b.com").1).message =
      "가입되지 않은 이메일입니다." ∧
    (runEffects (initState "a@b.com")
        (onCheckEmail (fun _ => true) (FetchOutcome.thrown true "dup") "a@b.com").1).status =
      CheckStatus.success ∧
    (runEffects (initState "a@b.com")
        (onCheckEmail (fun _ => true) (FetchOutcome.thrown true "dup") "a@b.com").1).message =
      "가입된 이메일입니다." := by
  decide

/-- C1 (amended): after local validation passes, if the duplicate-check
call resolves the handler sets status to error with the not-registered
message, and if it throws the handler sets status to success with the
registered message (the inverted contract of the source). -/
theorem onCheckEmail_network_outcome (v : String → Bool) (world : FetchOutcome)
    (email : String) (s : FindIdState) (h : v email = true) :
    (∀ b, (checkEmailDuplicate email world).1 = Except.ok b →
      (runEffects s (onCheckEmail v world email).1).status = CheckStatus.error ∧
      (runEffects s (onCheckEmail v world email).1).message = notRegisteredMsg) ∧
    (∀ m, (checkEmailDuplicate email world).1 = Except.error m →
      (runEffects s (onCheckEmail v world email).1).status = CheckStatus.success ∧
      (runEffects s (onCheckEmail v world email).1).message = registeredMsg) := by
  constructor
  · intro b hb
    simp [onCheckEmail, h, hb, runEffects, applyEffect]
  · intro m hm
    simp [onCheckEmail, h, hm, runEffects, applyEffect]

/-- Witness for C1 (amended): both branches at the email `"a@b.com"`. -/
theorem onCheckEmail_network_outcome_witness :
    ((runEffects (initState "a@b.com")
        (onCheckEmail (fun _ => true) (FetchOutcome.response true none) "a@b.com").1).status =
      CheckStatus.error ∧
     (runEffects (initState "a@b.com")
        (onCheckEmail (fun _ => true) (FetchOutcome.response true none) "a@b.com").1).message =
      notRegisteredMsg) ∧
    ((runEffects (initState "a@b.com")
        (onCheckEmail (fun _ => true) (FetchOutcome.thrown true "dup") "a@b.com").1).status =
      CheckStatus.success ∧
     (runEffects (initState "a@b.com")
        (onCheckEmail (fun _ => true) (FetchOutcome.thrown true "dup") "a@b.com").1).message =
      registeredMsg) := by
  exact ⟨(onCheckEmail_network_outcome (fun _ => true) (FetchOutcome.response true none)
      "a@b.com" (initState "a@b.com") rfl).1 true rfl,
    (onCheckEmail_network_outcome (fun _ => true) (FetchOutcome.thrown true "dup")
      "a@b.com" (initState "a@b.com") rfl).2 "dup" rfl⟩

/-- C8: when the zod parse fails, the handler performs exactly the
set-message and set-status-error calls, issues zero fetches, ends with
status error and the localized format message, and leaves isChecking
untouched. -/
theorem onCheckEmail_invalid_email (v : String → Bool) (world : FetchOutcome)
    (email : String) (s : FindIdState) (h : v email = false) :
    onCheckEmail v world email =
      ([Effect.setMessage zodEmailMessage, Effect.setStatus CheckStatus.error], 0) ∧
    (runEffects s (onCheckEmail v world email).1).status = CheckStatus.error ∧
    (runEffects s (onCheckEmail v world email).1).message = zodEmailMessage ∧
    (runEffects s (onCheckEmail v world email).1).isChecking = s.isChecking := by
  refine ⟨?_, ?_, ?_, ?_⟩ <;> simp [onCheckEmail, h, runEffects, applyEffect]

/-- Witness for C8 at the spec example `"bad-email"`, which the email
pattern rejects, starting from the idle state. -/
theorem onCheckEmail_invalid_email_witness :
    onCheckEmail emailRegexTest (FetchOutcome.response true none) "bad-email" =
      ([Effect.setMessage zodEmailMessage, Effect.setStatus CheckStatus.error], 0) ∧
    (runEffects (initState "bad-email")
        (onCheckEmail emailRegexTest (FetchOutcome.response true none) "bad-email").1).status =
      CheckStatus.error ∧
    (runEffects (initState "bad-email")
        (onCheckEmail emailRegexTest (FetchOutcome.response true none) "bad-email").1).message =
      zodEmailMessage ∧
    (runEffects (initState "bad-email")
        (onCheckEmail emailRegexTest (FetchOutcome.response true none) "bad-email").1).isChecking =
      (initState "bad-email").isChecking :=
  onCheckEmail_invalid_email emailRegexTest (FetchOutcome.response true none) "bad-email"
    (initState "bad-email") (by decide)

/-- C9: whenever local validation passes, the handler ends by setting
isChecking to false, whichever way the network call settled: the last
effect is the cleanup and the resulting state has isChecking false. -/
theorem onCheckEmail_isChecking_cleared (v : String → Bool) (world : FetchOutcome)
    (email : String) (s : FindIdState) (h : v email = true) :
    (onCheckEmail v world email).1.getLast? = some (Effect.setIsChecking false) ∧
    (runEffects s (onCheckEmail v world email).1).isChecking = false := by
  cases hres : (checkEmailDuplicate email world).1 <;>
    constructor <;>
    simp [onCheckEmail, h, hres, runEffects, applyEffect]

/-- Witness for C9: the resolve branch and the throw branch both finish
with isChecking false. -/
theorem onCheckEmail_isChecking_cleared_witness :
    (runEffects (initState "a@b.com")
        (onCheckEmail (fun _ => true) (FetchOutcome.response true none) "a@b.com").1).isChecking =
      false ∧
    (runEffects (initState "a@b.com")
        (onCheckEmail (fun _ => true) (FetchOutcome.thrown false "boom") "a@b.com").1).isChecking =
      false :=
  ⟨(onCheckEmail_isChecking_cleared (fun _ => true) (FetchOutcome.response true none)
      "a@b.com" (initState "a@b.com") rfl).2,
   (onCheckEmail_isChecking_cleared (fun _ => true) (FetchOutcome.thrown false "boom")
      "a@b.com" (initState "a@b.com") rfl).2⟩

/-- Witness for C10 at password `"abcdefgh"`, empty confirmPassword. -/
theorem validateSignupData_confirm_required_not_mismatch_witness :
    (validateSignupData ⟨"", "abcdefgh", "", "", ""⟩).confirmPassword =
      some "비밀번호 확인이 필요합니다." ∧
    (validateSignupData ⟨"", "abcdefgh", "", "", ""⟩).confirmPassword ≠
      some "비밀번호가 일치하지 않습니다." :=
  validateSignupData_confirm_required_not_mismatch ⟨"", "abcdefgh", "", "", ""⟩
    (by decide) (by decide)

end Auth
